import Mathlib

/-!
Verification development for the safety_rule_violation PPE-detection
pipeline. The definitions below are a shallow embedding of the decision
logic of the Python sources (app.py, app2.py, app3.py, app_main.py):
geometry (IoU), detection-threshold filtering, person/PPE association,
the frame-violation policies, the capture throttle, the per-frame loop
state of app_main.detect_and_process, and the session-end clamping and
summary. Numeric values are modelled as rationals, machine ints as Nat/Int.
-/

namespace SafetyRule

/-- Axis-aligned bounding box, the (x1, y1, x2, y2) tuples of the source. -/
structure Box where
  x1 : ℚ
  y1 : ℚ
  x2 : ℚ
  y2 : ℚ

/-- Width-times-height of the intersection rectangle, clamped at 0 in each
dimension: `max(0, xB - xA) * max(0, yB - yA)` of app_main.iou. -/
def interArea (A B : Box) : ℚ :=
  max 0 (min A.x2 B.x2 - max A.x1 B.x1) * max 0 (min A.y2 B.y2 - max A.y1 B.y1)

/-- Box area `(x2 - x1) * (y2 - y1)` as computed by app_main.iou. -/
def boxArea (A : Box) : ℚ :=
  (A.x2 - A.x1) * (A.y2 - A.y1)

/-- Intersection-over-union, embedding app_main.iou: returns 0 when the
intersection area is 0, otherwise interArea / (areaA + areaB - interArea). -/
def iou (A B : Box) : ℚ :=
  if interArea A B = 0 then 0
  else interArea A B / (boxArea A + boxArea B - interArea A B)

/-- Class label strings used by the sources. -/
def personLabel : String := "Person"

def hardhatLabel : String := "Hardhat"

def maskLabel : String := "Face Mask"

def vestLabel : String := "Safety Vest"

def glovesLabel : String := "Gloves"

/-- One raw detector output record: label, confidence, box. -/
structure RawDetection where
  label : String
  conf : ℚ
  box : Box

/-- The per-class confidence threshold configuration (the `thresholds`
dict of app_main). -/
abbrev Thresholds := List (String × ℚ)

/-- The ingestion filter condition of app_main.detect_and_process line 124:
`label in thresholds and conf >= thresholds[label]`. A label absent from
the configuration makes the conjunction false. -/
def keepDetection (thr : Thresholds) (d : RawDetection) : Bool :=
  match thr.lookup d.label with
  | some t => decide (t ≤ d.conf)
  | none => false

/-- Detection Ingestion: the records of one frame that survive the
threshold filter. -/
def filterDetections (thr : Thresholds) (ds : List RawDetection) : List RawDetection :=
  ds.filter (keepDetection thr)

/-- The boxes collected under one class key of the `detections` dict. -/
def classBoxes (ds : List RawDetection) (l : String) : List Box :=
  (ds.filter (fun d => d.label == l)).map (fun d => d.box)

/-- Associator of app_main lines 130-134: a person has a helmet iff some
hardhat box overlaps it with IoU strictly above 0.2. -/
def hasHelmet (p : Box) (hardhats : List Box) : Bool :=
  hardhats.any (fun h => decide ((1 : ℚ)/5 < iou p h))

/-- The persons of a frame's kept detections that have no associated
hardhat (the ones entering the `if not has_helmet` branch). -/
def unequippedPersons (kept : List RawDetection) : List Box :=
  (classBoxes kept personLabel).filter
    (fun p => !(hasHelmet p (classBoxes kept hardhatLabel)))

/-- Throttle state: the `last_capture_time` variable of
app_main.detect_and_process. -/
structure ThrottleState where
  last : ℚ

/-- app_main line 96: `last_capture_time = time.time()` — the throttle is
initialised to the session start time, not to an unset value. -/
def throttleInit (startTime : ℚ) : ThrottleState :=
  ⟨startTime⟩

/-- The capture gate of app_main lines 137-140: fires iff
`now - last_capture_time > 8` (strict), and on firing sets
`last_capture_time = now`. Returns the decision and the updated state. -/
def shouldCapture (s : ThrottleState) (now : ℚ) : Bool × ThrottleState :=
  if now - s.last > 8 then (true, ⟨now⟩) else (false, s)

/-- One input frame of app_main: its raw detector records and the
wall-clock time at which it is processed. -/
structure Frame where
  dets : List RawDetection
  time : ℚ

/-- Mutable loop state of app_main.detect_and_process: `frame_idx`,
`alert_count`, `last_capture_time`, and the `detections` dict (which line
116 resets to the current frame's kept records on every iteration). -/
structure LoopState where
  frameIdx : ℕ
  alertCount : ℕ
  throttle : ThrottleState
  detections : List RawDetection

/-- One iteration of the while-loop of app_main.detect_and_process:
bump `frame_idx`, rebuild `detections` from this frame only, and for every
unequipped person bump `alert_count` and consult the capture throttle. -/
def processFrame (thr : Thresholds) (s : LoopState) (f : Frame) : LoopState :=
  { frameIdx := s.frameIdx + 1
    alertCount := s.alertCount + (unequippedPersons (filterDetections thr f.dets)).length
    throttle := (unequippedPersons (filterDetections thr f.dets)).foldl
      (fun t _ => (shouldCapture t f.time).2) s.throttle
    detections := filterDetections thr f.dets }

/-- The whole frame loop of app_main.detect_and_process, starting from the
initial state of lines 94-105. -/
def runSession (thr : Thresholds) (startTime : ℚ) (frames : List Frame) : LoopState :=
  frames.foldl (processFrame thr) ⟨0, 0, throttleInit startTime, []⟩

/-- Count of detections of one class still present in the `detections`
dict when the loop exits (app_main lines 161-164). -/
def totalOf (s : LoopState) (l : String) : ℕ :=
  (classBoxes s.detections l).length

/-- Session summary of app_main lines 161-193: per-class totals taken from
the final `detections` dict, PPE totals clamped with `min` to the person
total (lines 166-169), `alert_count` reported as "Violation Frames", and
one deficit finding per class with clamped total below the person total. -/
structure SessionSummary where
  persons : ℕ
  hardhats : ℕ
  masks : ℕ
  vests : ℕ
  violationFrames : ℕ
  hardhatDeficit : Bool
  maskDeficit : Bool
  vestDeficit : Bool
  extraViolationFlag : Bool

/-- Builds the SessionSummary from the final loop state, embedding
app_main lines 161-193 (clamping, deficit findings, flag). -/
def summarize (s : LoopState) : SessionSummary :=
  { persons := totalOf s personLabel
    hardhats := min (totalOf s hardhatLabel) (totalOf s personLabel)
    masks := min (totalOf s maskLabel) (totalOf s personLabel)
    vests := min (totalOf s vestLabel) (totalOf s personLabel)
    violationFrames := s.alertCount
    hardhatDeficit :=
      decide (min (totalOf s hardhatLabel) (totalOf s personLabel) < totalOf s personLabel)
    maskDeficit :=
      decide (min (totalOf s maskLabel) (totalOf s personLabel) < totalOf s personLabel)
    vestDeficit :=
      decide (min (totalOf s vestLabel) (totalOf s personLabel) < totalOf s personLabel)
    extraViolationFlag :=
      decide (min (totalOf s hardhatLabel) (totalOf s personLabel) < totalOf s personLabel) ||
      decide (min (totalOf s maskLabel) (totalOf s personLabel) < totalOf s personLabel) ||
      decide (min (totalOf s vestLabel) (totalOf s personLabel) < totalOf s personLabel) }

/-- Top level of app_main.detect_and_process: an unopenable source (lines
89-91) returns before any frame is processed; otherwise run the loop and
produce the summary together with the processed-frame count. -/
def detectAndProcess (thr : Thresholds) (startTime : ℚ)
    (source : Option (List Frame)) : Option (SessionSummary × ℕ) :=
  match source with
  | none => none
  | some frames =>
    some (summarize (runSession thr startTime frames),
          (runSession thr startTime frames).frameIdx)

/-- The per-box flag scan of app.py lines 85-97: fold over the frame's
detection labels, latching `person_detected` and `hardhat_detected`. -/
def scanFlags (labels : List String) : Bool × Bool :=
  labels.foldl
    (fun acc l => (acc.1 || (l == personLabel), acc.2 || (l == hardhatLabel)))
    (false, false)

/-- Presence Policy of app.py line 104: violating iff some Person was seen
and no Hardhat was seen. -/
def presenceViolating (labels : List String) : Bool :=
  (scanFlags labels).1 && !(scanFlags labels).2

/-- Per-class occurrence count over a frame's detection labels (the
`person_count` / `hardhat_count` accumulation of app2.py and app3.py). -/
def countLabel (labels : List String) (l : String) : ℕ :=
  labels.countP (fun x => x == l)

/-- Count-Deficit Policy of app2.py line 274 and app3.py line 447:
violating iff `person_count > 0 and hardhat_count < person_count`. -/
def countDeficitViolating (labels : List String) : Bool :=
  decide (0 < countLabel labels personLabel) &&
  decide (countLabel labels hardhatLabel < countLabel labels personLabel)

/-- app3.py line 447: an alert frame is saved iff the count-deficit check
holds for the frame. -/
def app3SavesAlert (labels : List String) : Bool :=
  countDeficitViolating labels

/-- app3.py lines 447-454: the periodic summary snapshot is written only
inside the violation branch, when additionally `frame_idx % 70 == 0`. -/
def app3SavesSummary (labels : List String) (frameIdx : ℕ) : Bool :=
  app3SavesAlert labels && (frameIdx % 70 == 0)

/-- app.py process_video: a source that cannot be opened (lines 67-69)
yields no result at all; otherwise the loop returns the fps, the frame
count and the list of alert frame indices (presence policy). -/
def processVideoApp1 (fps : ℚ) (source : Option (List (List String))) :
    Option (ℚ × ℕ × List ℕ) :=
  match source with
  | none => none
  | some frames =>
    let final := frames.foldl
      (fun acc f =>
        (acc.1 + 1, if presenceViolating f then acc.2 ++ [acc.1 + 1] else acc.2))
      ((0 : ℕ), ([] : List ℕ))
    some (fps, final.1, final.2)

/-- app2.py process_video: a source that cannot be opened (lines 216-218)
returns `(None, 0, 0)`; otherwise the loop counts frames and violating
frames under the count-deficit policy. -/
def processVideoApp2 (fps : ℚ) (source : Option (List (List String))) :
    Option ℚ × ℕ × ℕ :=
  match source with
  | none => (none, 0, 0)
  | some frames =>
    let final := frames.foldl
      (fun acc f => (acc.1 + 1, acc.2 + (if countDeficitViolating f then 1 else 0)))
      ((0 : ℕ), (0 : ℕ))
    (some fps, final.1, final.2)

/-! Concrete inputs used by counterexamples and witnesses. -/

/-- A sample box. -/
def boxEx : Box := ⟨0, 0, 10, 10⟩

/-- A second sample person box, disjoint from boxEx. -/
def boxEx2 : Box := ⟨20, 0, 30, 10⟩

/-- A full-confidence detection with a label that has no configured
threshold. -/
def glovesDetEx : RawDetection := ⟨glovesLabel, 1, boxEx⟩

/-- A threshold configuration with a single configured label. -/
def thrEx : Thresholds := [(personLabel, 0)]

/-- A full-confidence Person detection. -/
def personDetEx1 : RawDetection := ⟨personLabel, 1, boxEx⟩

/-- A second full-confidence Person detection. -/
def personDetEx2 : RawDetection := ⟨personLabel, 1, boxEx2⟩

/-- Two frames: one with two unequipped persons, one empty. -/
def framesC1 : List Frame := [⟨[personDetEx1, personDetEx2], 0⟩, ⟨[], 1⟩]

/-- A concrete non-degenerate box. -/
def boxW1 : Box := ⟨0, 0, 4, 4⟩

/-- A box overlapping boxW1. -/
def boxW2 : Box := ⟨2, 2, 6, 6⟩

/-- A box disjoint from boxW1. -/
def boxW3 : Box := ⟨9, 9, 12, 12⟩

/-- A degenerate box (x2 = x1). -/
def boxDegW : Box := ⟨5, 5, 5, 9⟩

/-! Helper lemmas about the embedded definitions. -/

/-- The intersection area is never negative. -/
theorem interArea_nonneg (A B : Box) : 0 ≤ interArea A B :=
  mul_nonneg (le_max_left 0 _) (le_max_left 0 _)

/-- A nonzero intersection area forces both intersection dimensions to be
strictly positive. -/
theorem interArea_ne_zero_dims (A B : Box) (h : interArea A B ≠ 0) :
    max A.x1 B.x1 < min A.x2 B.x2 ∧ max A.y1 B.y1 < min A.y2 B.y2 := by
  unfold interArea at h
  rcases mul_ne_zero_iff.mp h with ⟨h1, h2⟩
  have hx : 0 < max 0 (min A.x2 B.x2 - max A.x1 B.x1) :=
    lt_of_le_of_ne (le_max_left 0 _) (Ne.symm h1)
  have hy : 0 < max 0 (min A.y2 B.y2 - max A.y1 B.y1) :=
    lt_of_le_of_ne (le_max_left 0 _) (Ne.symm h2)
  constructor
  · rcases lt_max_iff.mp hx with h3 | h3
    · exact absurd h3 (lt_irrefl 0)
    · linarith
  · rcases lt_max_iff.mp hy with h3 | h3
    · exact absurd h3 (lt_irrefl 0)
    · linarith

/-- With positive intersection dimensions the clamps in interArea vanish. -/
theorem interArea_eq_of_pos (A B : Box)
    (hx : max A.x1 B.x1 < min A.x2 B.x2) (hy : max A.y1 B.y1 < min A.y2 B.y2) :
    interArea A B =
      (min A.x2 B.x2 - max A.x1 B.x1) * (min A.y2 B.y2 - max A.y1 B.y1) := by
  unfold interArea
  rw [max_eq_right (sub_nonneg.mpr (le_of_lt hx)),
      max_eq_right (sub_nonneg.mpr (le_of_lt hy))]

/-- A nonzero intersection area is bounded by the first box's area. -/
theorem interArea_le_left (A B : Box) (h : interArea A B ≠ 0) :
    interArea A B ≤ boxArea A := by
  obtain ⟨hx, hy⟩ := interArea_ne_zero_dims A B h
  rw [interArea_eq_of_pos A B hx hy]
  unfold boxArea
  have p1 := min_le_left A.x2 B.x2
  have p2 := le_max_left A.x1 B.x1
  have p3 := min_le_left A.y2 B.y2
  have p4 := le_max_left A.y1 B.y1
  have hw : min A.x2 B.x2 - max A.x1 B.x1 ≤ A.x2 - A.x1 := by linarith
  have hh : min A.y2 B.y2 - max A.y1 B.y1 ≤ A.y2 - A.y1 := by linarith
  exact mul_le_mul hw hh (by linarith) (by linarith)

/-- The intersection area is symmetric in its arguments. -/
theorem interArea_comm (A B : Box) : interArea A B = interArea B A := by
  unfold interArea
  rw [min_comm A.x2 B.x2, max_comm A.x1 B.x1, min_comm A.y2 B.y2, max_comm A.y1 B.y1]

/-- A nonzero intersection area is bounded by the second box's area. -/
theorem interArea_le_right (A B : Box) (h : interArea A B ≠ 0) :
    interArea A B ≤ boxArea B := by
  rw [interArea_comm]
  rw [interArea_comm] at h
  exact interArea_le_left B A h

/-- A nonzero intersection area forces both box areas to be positive. -/
theorem boxArea_pos_of_inter (A B : Box) (h : interArea A B ≠ 0) :
    0 < boxArea A ∧ 0 < boxArea B := by
  obtain ⟨hx, hy⟩ := interArea_ne_zero_dims A B h
  have p1 := min_le_left A.x2 B.x2
  have p2 := le_max_left A.x1 B.x1
  have p3 := min_le_left A.y2 B.y2
  have p4 := le_max_left A.y1 B.y1
  have q1 := min_le_right A.x2 B.x2
  have q2 := le_max_right A.x1 B.x1
  have q3 := min_le_right A.y2 B.y2
  have q4 := le_max_right A.y1 B.y1
  unfold boxArea
  constructor
  · exact mul_pos (by linarith) (by linarith)
  · exact mul_pos (by linarith) (by linarith)

/-- The latch fold of app.py computed in closed form. -/
theorem scanFlags_foldl (labels : List String) (a b : Bool) :
    labels.foldl
        (fun acc l => (acc.1 || (l == personLabel), acc.2 || (l == hardhatLabel)))
        (a, b) =
      (a || labels.any (fun l => l == personLabel),
       b || labels.any (fun l => l == hardhatLabel)) := by
  induction labels generalizing a b with
  | nil => simp
  | cons x xs ih =>
    rw [List.foldl_cons, ih]
    simp [Bool.or_assoc]

/-- processFrame increments the frame index by one. -/
theorem processFrame_frameIdx (thr : Thresholds) (s : LoopState) (f : Frame) :
    (processFrame thr s f).frameIdx = s.frameIdx + 1 := rfl

/-- processFrame adds one alert per unequipped person of the frame. -/
theorem processFrame_alertCount (thr : Thresholds) (s : LoopState) (f : Frame) :
    (processFrame thr s f).alertCount =
      s.alertCount + (unequippedPersons (filterDetections thr f.dets)).length := rfl

/-- processFrame replaces the detections dict with this frame's kept
records. -/
theorem processFrame_detections (thr : Thresholds) (s : LoopState) (f : Frame) :
    (processFrame thr s f).detections = filterDetections thr f.dets := rfl

/-- The frame loop advances the frame index by the number of frames. -/
theorem foldl_frameIdx (thr : Thresholds) (s : LoopState) (frames : List Frame) :
    (frames.foldl (processFrame thr) s).frameIdx = s.frameIdx + frames.length := by
  induction frames generalizing s with
  | nil => simp
  | cons f fs ih =>
    rw [List.foldl_cons, ih, processFrame_frameIdx]
    simp
    omega

/-- The frame loop adds one alert per unequipped person of each frame. -/
theorem foldl_alertCount (thr : Thresholds) (s : LoopState) (frames : List Frame) :
    (frames.foldl (processFrame thr) s).alertCount =
      s.alertCount +
        (frames.map
          (fun f => (unequippedPersons (filterDetections thr f.dets)).length)).sum := by
  induction frames generalizing s with
  | nil => simp
  | cons f fs ih =>
    rw [List.foldl_cons, ih, processFrame_alertCount]
    simp
    omega

/-- After a nonempty frame loop the detections dict holds exactly the last
frame's kept records. -/
theorem foldl_detections (thr : Thresholds) (s : LoopState) (f : Frame)
    (fs : List Frame) :
    ((f :: fs).foldl (processFrame thr) s).detections =
      filterDetections thr (fs.getLastD f).dets := by
  induction fs generalizing s f with
  | nil => rfl
  | cons g gs ih =>
    rw [List.foldl_cons, List.getLastD_cons]
    exact ih (processFrame thr s f) g

/-! Claim theorems. -/

/-- C1 (counterexample): on a two-frame session whose first frame has two
unequipped persons and whose second frame is empty, the session-end Person
total is not the sum of the per-frame Person counts and the reported
violation-frame count is not the number of violating frames — refuting the
claim that per-class counts accumulate across frames and that
violation_frames counts violating frames. -/
theorem C1_counterexample :
    ¬ ((summarize (runSession thrEx 0 framesC1)).persons =
         (framesC1.map
           (fun f => (classBoxes (filterDetections thrEx f.dets) personLabel).length)).sum ∧
       (summarize (runSession thrEx 0 framesC1)).violationFrames =
         framesC1.countP
           (fun f =>
             decide (0 < (unequippedPersons (filterDetections thrEx f.dets)).length))) := by
  decide

/-- C1 (amended): the aggregator of app_main.detect_and_process does not
keep running per-class totals — the detections dict is rebuilt from
scratch on every frame, so at session end it holds only the last frame's
kept records (per-class totals are the last frame's counts, or zero for an
empty session); frames_processed equals the number of frames; and the
quantity reported as violation frames (alert_count) increments once per
unequipped person per frame, so it equals the total number of
unequipped-person instances over all frames, not the number of violating
frames. -/
theorem C1_session_totals (thr : Thresholds) (t0 : ℚ) (frames : List Frame) :
    (runSession thr t0 frames).frameIdx = frames.length ∧
    (runSession thr t0 frames).alertCount =
      (frames.map
        (fun f => (unequippedPersons (filterDetections thr f.dets)).length)).sum ∧
    (runSession thr t0 frames).detections =
      filterDetections thr (frames.getLastD ⟨[], 0⟩).dets := by
  refine ⟨?_, ?_, ?_⟩
  · rw [runSession, foldl_frameIdx]
    simp
  · rw [runSession, foldl_alertCount]
    simp
  · cases frames with
    | nil => rfl
    | cons f fs =>
      rw [runSession, foldl_detections, List.getLastD_cons]

/-- C2 (counterexample): a full-confidence record whose label has no
configured threshold is dropped by the ingestion filter, refuting the
claim that such records are passed through unfiltered. -/
theorem C2_counterexample :
    thrEx.lookup glovesDetEx.label = none ∧
    glovesDetEx ∈ [glovesDetEx] ∧
    filterDetections thrEx [glovesDetEx] = [] :=
  ⟨rfl, by simp, rfl⟩

/-- C2 (amended): for every threshold configuration and every record, the
record appears downstream iff its label HAS a configured threshold and its
confidence is at least that threshold; in particular a record whose label
has no configured threshold is dropped, and a record with confidence below
its label's threshold never appears in any FrameDetectionSet. -/
theorem C2_ingestion_filter (thr : Thresholds) (ds : List RawDetection)
    (d : RawDetection) :
    d ∈ filterDetections thr ds ↔
      d ∈ ds ∧ ∃ t, thr.lookup d.label = some t ∧ t ≤ d.conf := by
  unfold filterDetections
  rw [List.mem_filter]
  refine and_congr_right (fun _ => ?_)
  unfold keepDetection
  rcases h : thr.lookup d.label with _ | t <;> simp [h]

/-- C3 (counterexample): a fresh throttler started at time 0 refuses a
capture at time 8 even though 8 seconds (the claimed minimum interval)
have elapsed and the claim says a fresh throttler (with no capture yet)
permits the first capture — the state is initialised to the session start
time and the comparison is strict. -/
theorem C3_counterexample :
    (8 : ℚ) - (throttleInit 0).last ≥ 8 ∧
    (shouldCapture (throttleInit 0) 8).1 = false := by
  constructor
  · norm_num [throttleInit]
  · norm_num [shouldCapture, throttleInit]

/-- C3 (amended): should_capture(now) returns true iff
now - last_capture_time > 8 STRICTLY, where last_capture_time is
initialised to the session start time (there is no unset state, so the
very first capture is permitted only once strictly more than 8 seconds
have elapsed since session start); on a true result it updates
last_capture_time to now in the same decision step, on a false result the
state is unchanged, and a second evaluation at the same timestamp can
never also fire. -/
theorem C3_throttle_step (s : ThrottleState) (now t0 : ℚ) :
    ((shouldCapture s now).1 = true ↔ now - s.last > 8) ∧
    ((shouldCapture s now).1 = true → (shouldCapture s now).2.last = now) ∧
    ((shouldCapture s now).1 = false → (shouldCapture s now).2 = s) ∧
    (shouldCapture (shouldCapture s now).2 now).1 = false ∧
    (throttleInit t0).last = t0 := by
  unfold shouldCapture throttleInit
  by_cases h : now - s.last > 8
  · simp [h]
    norm_num
  · simp [h]

/-- C3 (witness): the amended throttle theorem applied at the concrete
state last = 0, now = 9: the capture fires and updates the timestamp. -/
theorem C3_throttle_step_witness : (shouldCapture ⟨0⟩ 9).2.last = 9 :=
  (C3_throttle_step ⟨0⟩ 9 0).2.1 (by norm_num [shouldCapture])

/-- C4 (counterexample): at frame index 70 (a multiple of the snapshot
period) with no detections at all, no periodic summary snapshot is
captured, refuting the claim that the snapshot gate fires independently of
whether the frame is violating. -/
theorem C4_counterexample :
    70 % 70 = 0 ∧ app3SavesSummary [] 70 = false := by
  decide

/-- C4 (amended): in app3.process_video the periodic snapshot check is
nested INSIDE the violation branch: a summary snapshot is captured iff the
frame is violating under the count-deficit policy AND frame_index % 70 = 0
(the period in the code is 70, not 80); it does not fire on non-violating
frames. -/
theorem C4_snapshot_gate (labels : List String) (i : ℕ) :
    app3SavesSummary labels i = true ↔
      (app3SavesAlert labels = true ∧ i % 70 = 0) := by
  simp [app3SavesSummary]

/-- C5 (confirmed): the Presence Policy of app.py flags a frame iff some
Person is detected and no Hardhat is detected, and the Count-Deficit
Policy of app2.py flags a frame iff count(Person) > 0 and
count(Hardhat) < count(Person). -/
theorem C5_policies (labels : List String) :
    (presenceViolating labels = true ↔
      personLabel ∈ labels ∧ hardhatLabel ∉ labels) ∧
    (countDeficitViolating labels = true ↔
      0 < countLabel labels personLabel ∧
        countLabel labels hardhatLabel < countLabel labels personLabel) := by
  constructor
  · unfold presenceViolating scanFlags
    rw [scanFlags_foldl]
    simp [List.any_eq_true]
    intro _
    constructor
    · intro h hm
      exact h hardhatLabel hm rfl
    · intro h x hx he
      exact h (he ▸ hx)
  · unfold countDeficitViolating
    simp

/-- C6 (confirmed): the Associator marks a Person as equipped iff there
exists a Hardhat detection whose IoU with the Person box strictly exceeds
0.2, and with no Hardhat candidates every Person is unequipped. -/
theorem C6_associator (p : Box) (hardhats : List Box) :
    (hasHelmet p hardhats = true ↔ ∃ h ∈ hardhats, (1 : ℚ)/5 < iou p h) ∧
    hasHelmet p [] = false := by
  constructor
  · simp [hasHelmet]
  · rfl

/-- C7 (confirmed): iou is total — its value always lies in [0,1]; a
nonzero intersection area implies both box areas are positive and the
denominator is nonzero (so the division is never by zero); and a
degenerate first box yields iou 0 against any other box. -/
theorem C7_iou_total (A B : Box) :
    0 ≤ iou A B ∧ iou A B ≤ 1 ∧
    (interArea A B ≠ 0 →
      0 < boxArea A ∧ 0 < boxArea B ∧
        boxArea A + boxArea B - interArea A B ≠ 0) ∧
    ((A.x2 ≤ A.x1 ∨ A.y2 ≤ A.y1) → iou A B = 0) := by
  by_cases h : interArea A B = 0
  · refine ⟨?_, ?_, ?_, ?_⟩
    · simp [iou, h]
    · simp [iou, h]
    · intro hc
      exact absurd h hc
    · intro _
      simp [iou, h]
  · have hA := (boxArea_pos_of_inter A B h).1
    have hB := (boxArea_pos_of_inter A B h).2
    have hiA := interArea_le_left A B h
    have hiB := interArea_le_right A B h
    have hipos : 0 < interArea A B := lt_of_le_of_ne (interArea_nonneg A B) (Ne.symm h)
    have hden : 0 < boxArea A + boxArea B - interArea A B := by linarith
    have hiou : iou A B = interArea A B / (boxArea A + boxArea B - interArea A B) := by
      simp [iou, h]
    refine ⟨?_, ?_, ?_, ?_⟩
    · rw [hiou]
      exact div_nonneg (le_of_lt hipos) (le_of_lt hden)
    · rw [hiou, div_le_one hden]
      linarith
    · intro _
      exact ⟨hA, hB, ne_of_gt hden⟩
    · intro hdeg
      exfalso
      obtain ⟨hx, hy⟩ := interArea_ne_zero_dims A B h
      have p1 := le_max_left A.x1 B.x1
      have p2 := min_le_left A.x2 B.x2
      have p3 := le_max_left A.y1 B.y1
      have p4 := min_le_left A.y2 B.y2
      rcases hdeg with hd | hd
      · linarith
      · linarith

/-- C7 (witness): the totality theorem applied at concrete boxes — an
overlapping pair has iou in [0,1] with positive areas and nonzero
denominator, and a degenerate box yields iou 0. -/
theorem C7_iou_total_witness :
    0 ≤ iou boxW1 boxW2 ∧ iou boxW1 boxW2 ≤ 1 ∧
    (0 < boxArea boxW1 ∧ 0 < boxArea boxW2 ∧
      boxArea boxW1 + boxArea boxW2 - interArea boxW1 boxW2 ≠ 0) ∧
    iou boxDegW boxW1 = 0 :=
  ⟨(C7_iou_total boxW1 boxW2).1,
   (C7_iou_total boxW1 boxW2).2.1,
   (C7_iou_total boxW1 boxW2).2.2.1
     (by norm_num [interArea, boxW1, boxW2, min_def, max_def]),
   (C7_iou_total boxDegW boxW1).2.2.2 (Or.inl (by norm_num [boxDegW]))⟩

/-- C8 (confirmed): iou is symmetric; two boxes separated along an axis
(disjoint) have iou 0; and a non-degenerate box paired with itself has
iou 1. -/
theorem C8_iou_algebra (A B : Box) :
    iou A B = iou B A ∧
    ((A.x2 ≤ B.x1 ∨ B.x2 ≤ A.x1 ∨ A.y2 ≤ B.y1 ∨ B.y2 ≤ A.y1) → iou A B = 0) ∧
    (A.x1 < A.x2 → A.y1 < A.y2 → iou A A = 1) := by
  refine ⟨?_, ?_, ?_⟩
  · unfold iou
    rw [interArea_comm A B, add_comm (boxArea A) (boxArea B)]
  · intro hd
    have hzero : interArea A B = 0 := by
      unfold interArea
      have p1 := min_le_left A.x2 B.x2
      have p2 := min_le_right A.x2 B.x2
      have p3 := le_max_left A.x1 B.x1
      have p4 := le_max_right A.x1 B.x1
      have q1 := min_le_left A.y2 B.y2
      have q2 := min_le_right A.y2 B.y2
      have q3 := le_max_left A.y1 B.y1
      have q4 := le_max_right A.y1 B.y1
      rcases hd with h | h | h | h
      · rw [max_eq_left (by linarith : min A.x2 B.x2 - max A.x1 B.x1 ≤ 0), zero_mul]
      · rw [max_eq_left (by linarith : min A.x2 B.x2 - max A.x1 B.x1 ≤ 0), zero_mul]
      · rw [max_eq_left (by linarith : min A.y2 B.y2 - max A.y1 B.y1 ≤ 0), mul_zero]
      · rw [max_eq_left (by linarith : min A.y2 B.y2 - max A.y1 B.y1 ≤ 0), mul_zero]
    simp [iou, hzero]
  · intro h1 h2
    have hA : 0 < boxArea A := by
      unfold boxArea
      exact mul_pos (by linarith) (by linarith)
    have hint : interArea A A = boxArea A := by
      unfold interArea boxArea
      rw [min_self, max_self, min_self, max_self]
      rw [max_eq_right (by linarith : (0:ℚ) ≤ A.x2 - A.x1),
          max_eq_right (by linarith : (0:ℚ) ≤ A.y2 - A.y1)]
    unfold iou
    rw [hint, if_neg (ne_of_gt hA)]
    have hsum : boxArea A + boxArea A - boxArea A = boxArea A := by ring
    rw [hsum]
    exact div_self (ne_of_gt hA)

/-- C8 (witness): the algebra theorem applied at concrete boxes — a
symmetric pair, a disjoint pair with iou 0, and a non-degenerate box with
iou 1 against itself. -/
theorem C8_iou_algebra_witness :
    iou boxW1 boxW3 = iou boxW3 boxW1 ∧
    iou boxW1 boxW3 = 0 ∧
    iou boxW1 boxW1 = 1 :=
  ⟨(C8_iou_algebra boxW1 boxW3).1,
   (C8_iou_algebra boxW1 boxW3).2.1 (Or.inl (by norm_num [boxW1, boxW3])),
   (C8_iou_algebra boxW1 boxW1).2.2 (by norm_num [boxW1]) (by norm_num [boxW1])⟩

/-- C9 (confirmed): for every threshold configuration, start time and
sequence of frames, after the session-end clamping step every PPE class's
clamped total is at most the Person total, and each deficit finding is
produced exactly when persons exceed the clamped class total. -/
theorem C9_clamp (thr : Thresholds) (t0 : ℚ) (frames : List Frame) :
    (summarize (runSession thr t0 frames)).hardhats ≤
        (summarize (runSession thr t0 frames)).persons ∧
    (summarize (runSession thr t0 frames)).masks ≤
        (summarize (runSession thr t0 frames)).persons ∧
    (summarize (runSession thr t0 frames)).vests ≤
        (summarize (runSession thr t0 frames)).persons ∧
    ((summarize (runSession thr t0 frames)).hardhatDeficit = true ↔
        (summarize (runSession thr t0 frames)).hardhats <
          (summarize (runSession thr t0 frames)).persons) ∧
    ((summarize (runSession thr t0 frames)).maskDeficit = true ↔
        (summarize (runSession thr t0 frames)).masks <
          (summarize (runSession thr t0 frames)).persons) ∧
    ((summarize (runSession thr t0 frames)).vestDeficit = true ↔
        (summarize (runSession thr t0 frames)).vests <
          (summarize (runSession thr t0 frames)).persons) := by
  refine ⟨?_, ?_, ?_, ?_, ?_, ?_⟩ <;>
    simp [summarize, min_le_right]

/-- C10 (confirmed): with an unopenable source every pipeline variant
reports a start failure without processing any frame: app_main produces no
summary at all, app2 returns (None, 0, 0) — zero frames, zero alerts — and
app.py returns no result. -/
theorem C10_start_failure (thr : Thresholds) (t0 fps : ℚ) :
    detectAndProcess thr t0 none = none ∧
    processVideoApp2 fps none = (none, 0, 0) ∧
    processVideoApp1 fps none = none :=
  ⟨rfl, rfl, rfl⟩

end SafetyRule
